import Mathlib

/-!
Verification development for the spoon backend (backend/app/services.py and
backend/app/routes.py).  The Python code is shallowly embedded: pure string
manipulation is modelled over lists of characters so that every definition is
executable by the kernel, the process-wide session dictionary becomes an
explicit state record, route handlers become state-transition functions, and
the external collaborators (GitHub API, LLM API, werkzeug, langchain text
splitter) are modelled by explicit inputs or by small stand-in functions whose
doc comments say exactly what they stand for.
-/

namespace Spoon

/-! Character-level models of the Python string primitives used by the code.
These are defined over lists of characters because the corresponding core
String functions do not reduce inside the kernel. -/

/-- Model of Python lower() for a single character (ASCII case folding,
which is all the code relies on). -/
def lowerAscii (c : Char) : Char :=
  if c.isUpper then Char.ofNat (c.toNat + 32) else c

/-- Model of Python str.lower() (ASCII case folding). -/
def pyLower (s : String) : String :=
  String.mk (s.data.map lowerAscii)

/-- Model of Python str.split(",") over the character list: every comma is a
separator, empty pieces are kept, and the empty string yields one empty
piece. -/
def splitCommaChars : List Char → List (List Char)
  | [] => [[]]
  | c :: rest =>
    let r := splitCommaChars rest
    if c = ',' then [] :: r
    else
      match r with
      | [] => [[c]]
      | h :: t => (c :: h) :: t

/-- Model of Python str.split(","). -/
def pySplitComma (s : String) : List String :=
  (splitCommaChars s.data).map String.mk

/-- Model of Python str.strip(): drop leading and trailing whitespace. -/
def trimChars (l : List Char) : List Char :=
  ((l.dropWhile Char.isWhitespace).reverse.dropWhile Char.isWhitespace).reverse

/-- Model of Python str.strip(). -/
def pyTrim (s : String) : String :=
  String.mk (trimChars s.data)

/-- Substring test on character lists: does the needle occur contiguously in
the haystack? -/
def containsSub : List Char → List Char → Bool
  | [], needle => needle.isEmpty
  | c :: t, needle => needle.isPrefixOf (c :: t) || containsSub t needle

/-- Model of the Python expression needle in haystack for strings
(contiguous substring containment). -/
def pyIn (needle haystack : String) : Bool :=
  containsSub haystack.data needle.data

/-- Model of Python str.endswith for a single candidate ending. -/
def pyEndsWith (s ending : String) : Bool :=
  ending.data.isSuffixOf s.data

/-- Model of the CPython runtime's classification of DECIMAL digit
characters (Unicode category Nd): accepted by str.isdigit() and parsed by
int() with the returned value.  The runtime's full Unicode tables are
external to the repository; this model covers the ASCII digits and
representative non-ASCII decimal-digit ranges (Arabic-Indic, Devanagari,
fullwidth), which is the structure the verified properties depend on. -/
def decimalDigitVal (c : Char) : Option Nat :=
  if c.isDigit then some (c.toNat - 48)
  else if 0x660 ≤ c.toNat && c.toNat ≤ 0x669 then some (c.toNat - 0x660)
  else if 0x966 ≤ c.toNat && c.toNat ≤ 0x96F then some (c.toNat - 0x966)
  else if 0xFF10 ≤ c.toNat && c.toNat ≤ 0xFF19 then some (c.toNat - 0xFF10)
  else none

/-- Model of the CPython runtime's NON-DECIMAL digit characters
(Numeric_Type=Digit but not category Nd): accepted by str.isdigit() but
rejected by int() with ValueError.  Representative cases: the Latin-1
superscripts, the superscript and subscript digits, and the circled
digits. -/
def nonDecimalDigit (c : Char) : Bool :=
  c = '¹' || c = '²' || c = '³' ||
  c.toNat = 0x2070 || (0x2074 ≤ c.toNat && c.toNat ≤ 0x2079) ||
  (0x2080 ≤ c.toNat && c.toNat ≤ 0x2089) ||
  (0x2460 ≤ c.toNat && c.toNat ≤ 0x2468)

/-- Model of Python str.isdigit() for one character: decimal digits and
non-decimal digit characters both pass. -/
def pyCharIsDigit (c : Char) : Bool :=
  (decimalDigitVal c).isSome || nonDecimalDigit c

/-- Model of Python str.isdigit(): nonempty and every character is a digit
character (decimal or not). -/
def pyIsDigit (s : String) : Bool :=
  !s.data.isEmpty && s.data.all pyCharIsDigit

/-- Model of Python int(...) on a stripped digit-only token: the value when
every character is a decimal digit, and none (a ValueError) when any
character is a digit character without a decimal value, such as ². -/
def pyIntDigits (s : String) : Option Nat :=
  s.data.foldl (fun acc c =>
    match acc, decimalDigitVal c with
    | some n, some v => some (10 * n + v)
    | _, _ => none) (some 0)

/-! The document data model.  A langchain Document with the metadata shapes
that services.py actually creates. -/

/-- A repo or text-upload document chunk: page_content plus metadata
source (the file path or filename) and chunk (the split index, absent on
the README and structure documents). -/
structure Doc where
  page_content : String
  source : String
  chunk : Option Nat
deriving DecidableEq

/-- A PDF document chunk: page_content plus metadata source (the uploaded
filename) and chunk_id (the split index used as the addressing key). -/
structure PdfDoc where
  page_content : String
  source : String
  chunk_id : Nat
deriving DecidableEq

/-- Model of the external langchain RecursiveCharacterTextSplitter.split_text.
The service layer treats the splitter as a black box; the properties verified
here use only that empty text produces no chunks and that text no longer than
the chunk size is returned whole as a single chunk.  The model cuts the text
into consecutive pieces of at most chunkSize characters; the first argument is
fuel that makes the recursion structural, and the wrapper below passes the
text length, which strictly bounds the number of cuts, so the zero-fuel
branch is never reached. -/
def chopAux : Nat → Nat → List Char → List (List Char)
  | 0, _, _ => []
  | _, _, [] => []
  | fuel + 1, n, c :: cs => ((c :: cs).take n) :: chopAux fuel n ((c :: cs).drop n)

/-- Model of splitter.split_text (see chopAux). -/
def splitText (chunkSize : Nat) (s : String) : List String :=
  (chopAux s.data.length chunkSize s.data).map String.mk

/-- Model of the for i, chunk in enumerate(chunks) loops in services.py that
attach a source and a running split index to every chunk. -/
def enumDocs (src : String) : Nat → List String → List Doc
  | _, [] => []
  | i, c :: cs => { page_content := c, source := src, chunk := some i } :: enumDocs src (i + 1) cs

/-! The GitHub source adapter (services.fetch_repo_docs and helpers).
A loaded repository is modelled as the README lookup result plus the file
tree that repo.get_contents walks. -/

mutual
/-- One entry of the remote repository tree: a file with its name, full path,
byte size and UTF-8 decoding (none when decoded_content.decode would raise
UnicodeDecodeError), or a directory with its children.  The children are a
bespoke list type, mutually inductive with the entries, so that the
recursions below stay structural and kernel-computable. -/
inductive RepoItem where
  | file (name path : String) (size : Nat) (content : Option String)
  | dir (name path : String) (children : RepoList)
inductive RepoList where
  | nil
  | cons (head : RepoItem) (tail : RepoList)
end

mutual
/-- Number of tree nodes below and including an entry, used as recursion
fuel: one per file, one per directory plus its children. -/
def RepoItem.weight : RepoItem → Nat
  | .file _ _ _ _ => 1
  | .dir _ _ cs => 1 + cs.weight
def RepoList.weight : RepoList → Nat
  | .nil => 0
  | .cons x t => x.weight + t.weight
end

/-- Concatenation of repository listings, modelling contents.extend. -/
def RepoList.append : RepoList → RepoList → RepoList
  | .nil, ys => ys
  | .cons x t, ys => .cons x (t.append ys)

/-- A repository as fetch_repo_docs sees it: the result of decoding
get_contents of the root README.md (none when the call raises or the decode
fails) and the root directory listing. -/
structure RepoData where
  readme : Option String
  root : RepoList

/-- The binary_extensions denylist of services.fetch_repo_docs
(services.py line 54), kept verbatim, including the mixed-case .DS_Store
entry that the lowercased file name can never match. -/
def ingestBinExts : List String :=
  [".png", ".jpg", ".jpeg", ".gif", ".ico", ".zip", ".pdf", ".woff", ".woff2",
   ".DS_Store", "package-lock.json"]

/-- The skip test of services.py line 55: the lowercased file name ends with
a denylisted extension, or the size exceeds 100000 bytes. -/
def shouldSkipIngest (name : String) (size : Nat) : Bool :=
  ingestBinExts.any (fun ext => pyEndsWith (pyLower name) ext) || size > 100000

/-- The per-file body of the ingestion loop (services.py lines 53-68): skip
denylisted or oversized files without touching their bytes, skip files whose
decode fails, and otherwise split the decoded text (chunk size 4000) into
documents tagged with the file path and the split index. -/
def chunksForFile (name path : String) (size : Nat) (content : Option String) : List Doc :=
  if shouldSkipIngest name size then []
  else
    match content with
    | none => []
    | some text => enumDocs path 0 (splitText 4000 text)

/-- The while contents loop of fetch_repo_docs: a work queue that pops the
front entry, appends a directory entry's children to the back of the queue,
and emits the chunk documents of each file entry in pop order.  The fuel
makes the recursion structural; the weight of the queue is exactly the
number of loop iterations (every iteration removes one tree node), so with
that fuel the zero-fuel branch is never reached. -/
def queueChunksAux : Nat → RepoList → List Doc
  | 0, _ => []
  | _, .nil => []
  | fuel + 1, .cons (RepoItem.file name path size content) rest =>
      chunksForFile name path size content ++ queueChunksAux fuel rest
  | fuel + 1, .cons (RepoItem.dir _ _ children) rest =>
      queueChunksAux fuel (rest.append children)

/-- The file-walk portion of fetch_repo_docs (see queueChunksAux). -/
def queueChunks (items : RepoList) : List Doc :=
  queueChunksAux items.weight items

/-- Model of services._get_repo_structure: the indented textual listing of
the tree, directories recursed into immediately with two extra spaces of
indentation.  Fuel again makes the recursion structural; the weight of the
listing bounds the recursion depth and length, so the zero-fuel branch is
never reached. -/
def structureAux : Nat → RepoList → String → String
  | 0, _, _ => ""
  | _, .nil, _ => ""
  | fuel + 1, .cons (RepoItem.dir name _ children) rest, ind =>
      ind ++ "üìÅ " ++ name ++ "/\n" ++ structureAux fuel children (ind ++ "  ")
        ++ structureAux fuel rest ind
  | fuel + 1, .cons (RepoItem.file name _ _ _) rest, ind =>
      ind ++ "üìÑ " ++ name ++ "\n" ++ structureAux fuel rest ind

/-- Model of services._get_repo_structure at the root (see structureAux). -/
def repoStructureText (items : RepoList) : String :=
  structureAux items.weight items ""

/-- Model of services.fetch_repo_docs: the README document (or the fixed
placeholder), then the repository-structure document, then the chunk
documents of the file walk. -/
def fetch_repo_docs (repo : RepoData) : List Doc :=
  let readmeDoc : Doc :=
    match repo.readme with
    | some text => { page_content := text, source := "README.md", chunk := none }
    | none =>
        { page_content := "No README.md found in the repository.",
          source := "README.md", chunk := none }
  let structureDoc : Doc :=
    { page_content := "This is the repository file structure:\n" ++ repoStructureText repo.root,
      source := "Repository Structure", chunk := none }
  readmeDoc :: structureDoc :: queueChunks repo.root

/-! The tree view and the single-file fetch (services._build_tree_structure
and services.fetch_file_content). -/

/-- The binary_extensions denylist shared by _build_tree_structure and
fetch_file_content (services.py lines 113 and 168); unlike the ingestion
list it does not contain package-lock.json. -/
def viewerBinExts : List String :=
  [".png", ".jpg", ".jpeg", ".gif", ".ico", ".zip", ".pdf", ".woff", ".woff2", ".DS_Store"]

/-- A file node of the tree view, with the flags computed in
_build_tree_structure lines 129-141. -/
structure TreeFileNode where
  name : String
  path : String
  size : Nat
  is_binary : Bool
  is_large : Bool
  viewable : Bool
deriving DecidableEq

/-- The file-node construction inside services._build_tree_structure
(lines 129-141): binary by extension of the lowercased name, large when the
size exceeds 100000 bytes, viewable when neither. -/
def mkFileNode (name path : String) (size : Nat) : TreeFileNode :=
  let is_binary := viewerBinExts.any (fun ext => pyEndsWith (pyLower name) ext)
  let is_large := decide (size > 100000)
  { name := name, path := path, size := size,
    is_binary := is_binary, is_large := is_large,
    viewable := !(is_binary || is_large) }

/-- The result record of services.fetch_file_content. -/
structure FileView where
  path : String
  content : Option String
  error : Option String
  is_binary : Bool
  size : Nat
deriving DecidableEq

/-- Model of services.fetch_file_content (lines 166-182) after the file has
been fetched: decide on the lowercased path against the viewer denylist,
refuse content above 500000 bytes, and otherwise return the UTF-8 decoding
(decoded is none when the decode would raise UnicodeDecodeError). -/
def fetch_file_content (file_path : String) (size : Nat) (decoded : Option String) : FileView :=
  let is_binary := viewerBinExts.any (fun ext => pyEndsWith (pyLower file_path) ext)
  let is_large := decide (size > 500000)
  if is_binary then
    { path := file_path, content := none,
      error := some "Binary file - content not displayable", is_binary := true, size := size }
  else if is_large then
    { path := file_path, content := none,
      error := some "File too large to display", is_binary := false, size := size }
  else
    match decoded with
    | some text =>
        { path := file_path, content := some text, error := none,
          is_binary := false, size := size }
    | none =>
        { path := file_path, content := none,
          error := some "File contains non-UTF-8 content and cannot be displayed",
          is_binary := true, size := size }

/-! The upload source adapter (services.process_uploaded_file_docs). -/

/-- The two failure modes of process_uploaded_file_docs: the explicit
ValueError for unsupported extensions, and the UnicodeDecodeError that
read().decode propagates for non-UTF-8 bytes. -/
inductive UploadError where
  | unsupportedType
  | decodeFailure
deriving DecidableEq

deriving instance DecidableEq for Except

/-- Model of services.process_uploaded_file_docs (lines 208-236): only .md
and .txt filenames are accepted (checked on the lowercased name), the stream
is decoded as UTF-8 (decodedText is none when the decode raises), stripped
emptiness yields no chunks, and otherwise the text is split (chunk size 4000)
into documents tagged with the filename and the split index. -/
def process_uploaded_file_docs (filename : String) (decodedText : Option String) :
    Except UploadError (List Doc) :=
  if pyEndsWith (pyLower filename) ".md" || pyEndsWith (pyLower filename) ".txt" then
    match decodedText with
    | none => .error .decodeFailure
    | some raw =>
        if pyTrim raw = "" then .ok []
        else .ok (enumDocs filename 0 (splitText 4000 raw))
  else .error .unsupportedType

/-! The session store and the load routes (routes.py). -/

/-- The process-wide session_data dictionary of routes.py lines 19-27. -/
structure SessionData where
  docs : Option (List Doc)
  file_manifest : Option String
  repo_url : Option String
  pdf_docs : Option (List PdfDoc)
  document_filename : Option String
  document_content : Option String
  document_mimetype : Option String
deriving DecidableEq

/-- The session at process start: every field is None. -/
def initialSession : SessionData :=
  { docs := none, file_manifest := none, repo_url := none, pdf_docs := none,
    document_filename := none, document_content := none, document_mimetype := none }

/-- The file manifest computed at routes.py lines 64 and 109: the newline
join of every document chunk's source, in corpus order and without any
deduplication. -/
def manifestOf (docs : List Doc) : String :=
  String.intercalate "\n" (docs.map (fun d => d.source))

/-- External werkzeug secure_filename sanitizer, modelled as the identity;
no verified claim depends on the sanitized value. -/
def secure_filename (s : String) : String := s

/-- Model of routes.load_repo_route (lines 54-75): clear the PDF corpus and
the viewer fields, then run fetch_repo_docs; on success store the documents,
the manifest, and the URL, and on any fetch failure return with only the
clearing applied.  The fetched argument is the outcome of the service
call. -/
def load_repo_step (url : String) (fetched : Except String (List Doc)) (s : SessionData) :
    SessionData :=
  let s1 := { s with pdf_docs := none, document_filename := none,
                     document_content := none, document_mimetype := none }
  match fetched with
  | .error _ => s1
  | .ok docs =>
      { s1 with docs := some docs, file_manifest := some (manifestOf docs),
                repo_url := some url }

/-- Model of routes.load_file_route (lines 88-118): clear all corpus fields,
store the new viewer filename, raw content and mimetype, then run
process_uploaded_file_docs; on success store the documents and the manifest,
and on failure return with the clearing and the viewer overwrite already
applied. -/
def load_file_step (filename mimetype content : String)
    (processed : Except String (List Doc)) (s : SessionData) : SessionData :=
  let s1 := { s with pdf_docs := none, repo_url := none, docs := none, file_manifest := none }
  let s2 := { s1 with document_filename := some (secure_filename filename),
                      document_content := some content,
                      document_mimetype := some mimetype }
  match processed with
  | .error _ => s2
  | .ok docs => { s2 with docs := some docs, file_manifest := some (manifestOf docs) }

/-- Model of routes.load_pdf_route (lines 132-161): clear all corpus fields,
store the new viewer filename, raw content and mimetype, then run
process_pdf_file_and_chunk; on success store the PDF documents, and on
failure return with the clearing and the viewer overwrite already
applied. -/
def load_pdf_step (filename mimetype content : String)
    (processed : Except String (List PdfDoc)) (s : SessionData) : SessionData :=
  let s1 := { s with docs := none, repo_url := none, pdf_docs := none, file_manifest := none }
  let s2 := { s1 with document_filename := some (secure_filename filename),
                      document_content := some content,
                      document_mimetype := some mimetype }
  match processed with
  | .error _ => s2
  | .ok pdocs => { s2 with pdf_docs := some pdocs }

/-- One invocation of a load endpoint, carrying the outcome of the embedded
service call (ok on successful ingestion, error when the service raises). -/
inductive LoadOp where
  | repo (url : String) (fetched : Except String (List Doc))
  | fileUpload (filename mimetype content : String) (processed : Except String (List Doc))
  | pdfUpload (filename mimetype content : String) (processed : Except String (List PdfDoc))

/-- Dispatch one load endpoint invocation on the session. -/
def applyOp : LoadOp → SessionData → SessionData
  | .repo url fetched, s => load_repo_step url fetched s
  | .fileUpload f m b processed, s => load_file_step f m b processed s
  | .pdfUpload f m b processed, s => load_pdf_step f m b processed s

/-- The mutual-exclusion reading of the session: not both the repo-side
fields (docs, file_manifest, repo_url) and the PDF corpus are populated. -/
def mutexFree (s : SessionData) : Bool :=
  !((s.docs.isSome || s.file_manifest.isSome || s.repo_url.isSome) && s.pdf_docs.isSome)

/-! The question route for the repo or text-upload corpus
(routes.ask_question_route). -/

/-- The raw outputs of the LLM calls that the route can make, supplied as an
oracle: the external model is consumed as an opaque service. -/
structure LLMOracle where
  intent : String
  query_type : String
  planner_files : String
  conv_answer : String
  tech_answer : String

/-- The observable outcome of ask_question_route: an input-validation error,
the small-talk path answer, or the technical path with the selected context
documents, the assembled context string and the responder answer. -/
inductive AskOutcome where
  | errorNoQuestion
  | errorNoDocs
  | conversational (answer : String)
  | technical (selected : List Doc) (context : String) (answer : String)
deriving DecidableEq

/-- The planner-output parse of routes.py line 270: split the response on
commas, strip each piece, and drop the pieces that strip to empty. -/
def parsePlannerFiles (resp : String) : List String :=
  ((pySplitComma resp).map pyTrim).filter (fun t => !(t == ""))

/-- The chunk selection of routes.py lines 273-276: keep the documents whose
source is exactly one of the parsed paths, and when that selection is empty
fall back to every document whose source contains the substring
README.md. -/
def selectRepoDocs (resp : String) (all_docs : List Doc) : List Doc :=
  let relevant := all_docs.filter (fun d => decide (d.source ∈ parsePlannerFiles resp))
  if relevant.isEmpty then all_docs.filter (fun d => pyIn "README.md" d.source)
  else relevant

/-- The context choice of routes.py lines 247-276: the whole corpus for a
broad query (case-insensitive substring test for broad_query), and the
planner selection otherwise. -/
def relevantFor (o : LLMOracle) (all_docs : List Doc) : List Doc :=
  if pyIn "broad_query" (pyLower o.query_type) then all_docs
  else selectRepoDocs o.planner_files all_docs

/-- The context assembly of routes.py lines 279-281. -/
def contextFor (docs : List Doc) : String :=
  String.intercalate "\n\n---\n\n"
    (docs.map (fun d => "File: " ++ d.source ++ "\n\nContent:\n" ++ d.page_content))

/-- Model of routes.ask_question_route (lines 169-310): validate the question
and the loaded corpus, branch to the small-talk path when the lowercased
intent output contains conversational_reply, and otherwise take the technical
path through scope classification, planner selection and context assembly. -/
def ask_question_route (question : String) (docs : Option (List Doc)) (o : LLMOracle) :
    AskOutcome :=
  if question = "" then .errorNoQuestion
  else
    match docs with
    | none => .errorNoDocs
    | some ds =>
      if ds.isEmpty then .errorNoDocs
      else if pyIn "conversational_reply" (pyLower o.intent) then
        .conversational o.conv_answer
      else
        .technical (relevantFor o ds) (contextFor (relevantFor o ds)) o.tech_answer

/-! The PDF planner parse and chunk selection
(routes.ask_pdf_question_route lines 392-399). -/

/-- The body of the list comprehension at routes.py line 393, token list by
token list: a token that fails isdigit on its stripped form is skipped; a
token that passes isdigit is converted with int(), whose ValueError on a
non-decimal digit token (such as ²) aborts the whole comprehension — the
result none models that exception escaping to the handler at line 394. -/
def parseTokens : List String → Option (List Nat)
  | [] => some []
  | tok :: rest =>
    if pyIsDigit (pyTrim tok) then
      match pyIntDigits (pyTrim tok) with
      | none => none
      | some n => (parseTokens rest).map (fun ns => n :: ns)
    else parseTokens rest

/-- The chunk-id parse of routes.py line 393: split the planner response on
commas and run the guarded int() comprehension over the tokens; none is the
ValueError case (see parseTokens). -/
def parseChunkIds (resp : String) : Option (List Nat) :=
  parseTokens (pySplitComma resp)

/-- Lines 392-399 of routes.py: the parsed ids when the comprehension
succeeds, and on its ValueError the except branch at line 395 selects every
chunk id of the loaded PDF corpus. -/
def relevantChunkIds (resp : String) (pdf_docs : List PdfDoc) : List Nat :=
  match parseChunkIds resp with
  | some ids => ids
  | none => pdf_docs.map (fun d => d.chunk_id)

/-- The chunk selection of routes.py line 399: keep the PDF documents whose
chunk_id is among the relevant ids. -/
def selectPdfDocs (resp : String) (pdf_docs : List PdfDoc) : List PdfDoc :=
  pdf_docs.filter (fun d => decide (d.chunk_id ∈ relevantChunkIds resp pdf_docs))

/-! A specification-side definition used for a refinement comparison. -/

/-- First-occurrence deduplication, used only to state what the spec says the
manifest is. -/
def distinctKeepFirst (l : List String) : List String :=
  l.foldl (fun acc s => if s ∈ acc then acc else acc ++ [s]) []

/-- The manifest as the spec words describe it: the newline-joined list of
the DISTINCT source identifiers of the corpus chunks, one line per distinct
source.  Stated from the spec, to be compared with manifestOf, which is what
routes.py actually computes. -/
def specManifest (docs : List Doc) : String :=
  String.intercalate "\n" (distinctKeepFirst (docs.map (fun d => d.source)))

/-! Concrete data used by the counterexamples and witnesses. -/

/-- A fifty-character (and fifty-byte) README body. -/
def readme50 : String := "# Demo\nThis is a fifty byte readme file for tests."

/-- A repository whose only file is the fifty-byte README.md. -/
def repoOnlyReadme : RepoData :=
  { readme := some readme50,
    root := RepoList.cons (RepoItem.file "README.md" "README.md" 50 (some readme50)) RepoList.nil }

/-- A corpus in which one source was split into two chunks. -/
def dupSourceDocs : List Doc :=
  [{ page_content := "def a(): pass", source := "a.py", chunk := some 0 },
   { page_content := "def b(): pass", source := "a.py", chunk := some 1 }]

/-- A one-chunk PDF corpus. -/
def pdfOneChunk : List PdfDoc :=
  [{ page_content := "Once upon a time", source := "story.pdf", chunk_id := 0 }]

/-- A one-chunk repo corpus used by the session counterexamples. -/
def repoDocsA : List Doc :=
  [{ page_content := "hello", source := "main.py", chunk := some 0 }]

/-! Helper lemmas shared by the claim theorems. -/

/-- enumDocs produces one document per chunk. -/
lemma enumDocs_length (src : String) (k : Nat) (cs : List String) :
    (enumDocs src k cs).length = cs.length := by
  induction cs generalizing k with
  | nil => rfl
  | cons c t ih => simp [enumDocs, ih]

/-- Every document enumDocs produces carries the given source and the running
split index. -/
lemma enumDocs_get (src : String) (k : Nat) (cs : List String) (i : Nat)
    (h : i < (enumDocs src k cs).length) :
    ((enumDocs src k cs).get ⟨i, h⟩).source = src ∧
    ((enumDocs src k cs).get ⟨i, h⟩).chunk = some (k + i) := by
  induction cs generalizing k i with
  | nil => simp [enumDocs] at h
  | cons c t ih =>
    cases i with
    | zero => simp [enumDocs]
    | succ j =>
      have h2 : j < (enumDocs src (k + 1) t).length := by
        simpa [enumDocs, Nat.succ_lt_succ_iff] using h
      have := ih (k + 1) j h2
      simpa [enumDocs, List.get, Nat.add_assoc, Nat.add_comm, Nat.add_left_comm] using this

/-- Folding the first-occurrence deduplication over a list of pairwise
distinct strings disjoint from the accumulator appends the list whole. -/
lemma distinctKeepFirst_aux (l acc : List String) (hdisj : ∀ x ∈ l, x ∉ acc)
    (hnd : l.Nodup) :
    l.foldl (fun a s => if s ∈ a then a else a ++ [s]) acc = acc ++ l := by
  induction l generalizing acc with
  | nil => simp
  | cons x t ih =>
    have hx : x ∉ acc := hdisj x (by simp)
    rw [List.nodup_cons] at hnd
    have step : ∀ y ∈ t, y ∉ acc ++ [x] := by
      intro y hy
      simp only [List.mem_append, List.mem_singleton]
      rintro (h1 | h2)
      · exact hdisj y (by simp [hy]) h1
      · exact hnd.1 (h2 ▸ hy)
    simp only [List.foldl_cons]
    rw [if_neg hx, ih (acc ++ [x]) step hnd.2]
    simp

/-- On a duplicate-free list, first-occurrence deduplication is the
identity. -/
lemma distinctKeepFirst_of_nodup (l : List String) (h : l.Nodup) :
    distinctKeepFirst l = l := by
  simpa using distinctKeepFirst_aux l [] (by simp) h

/-- The token comprehension raises exactly when some token passes isdigit on
its stripped form but int() rejects it. -/
lemma parseTokens_eq_none_iff (toks : List String) :
    parseTokens toks = none ↔
      ∃ tok ∈ toks, pyIsDigit (pyTrim tok) = true ∧ pyIntDigits (pyTrim tok) = none := by
  induction toks with
  | nil => simp [parseTokens]
  | cons tok rest ih =>
    simp only [parseTokens]
    by_cases hd : pyIsDigit (pyTrim tok) = true
    · rw [if_pos hd]
      cases hi : pyIntDigits (pyTrim tok) with
      | none =>
        constructor
        · intro _
          exact ⟨tok, List.mem_cons_self tok rest, hd, hi⟩
        · intro _
          rfl
      | some m =>
        rw [Option.map_eq_none', ih]
        constructor
        · rintro ⟨t, ht, h1, h2⟩
          exact ⟨t, List.mem_cons_of_mem tok ht, h1, h2⟩
        · rintro ⟨t, ht, h1, h2⟩
          rcases List.mem_cons.mp ht with rfl | htr
          · rw [hi] at h2
            cases h2
          · exact ⟨t, htr, h1, h2⟩
    · rw [if_neg hd, ih]
      constructor
      · rintro ⟨t, ht, h1, h2⟩
        exact ⟨t, List.mem_cons_of_mem tok ht, h1, h2⟩
      · rintro ⟨t, ht, h1, h2⟩
        rcases List.mem_cons.mp ht with rfl | htr
        · exact absurd h1 hd
        · exact ⟨t, htr, h1, h2⟩

/-- When the token comprehension succeeds, an id is collected exactly when
some token passes isdigit on its stripped form and int() yields that id. -/
lemma parseTokens_mem_of_some (toks : List String) :
    ∀ ids : List Nat, parseTokens toks = some ids → ∀ n : Nat,
      (n ∈ ids ↔ ∃ tok ∈ toks,
        pyIsDigit (pyTrim tok) = true ∧ pyIntDigits (pyTrim tok) = some n) := by
  induction toks with
  | nil =>
    intro ids h n
    simp only [parseTokens, Option.some.injEq] at h
    subst h
    simp
  | cons tok rest ih =>
    intro ids h n
    simp only [parseTokens] at h
    by_cases hd : pyIsDigit (pyTrim tok) = true
    · rw [if_pos hd] at h
      cases hi : pyIntDigits (pyTrim tok) with
      | none =>
        rw [hi] at h
        cases h
      | some m =>
        rw [hi] at h
        cases hr : parseTokens rest with
        | none =>
          rw [hr] at h
          cases h
        | some ns =>
          rw [hr] at h
          simp only [Option.map_some', Option.some.injEq] at h
          subst h
          constructor
          · intro hn
            rcases List.mem_cons.mp hn with rfl | hns
            · exact ⟨tok, List.mem_cons_self tok rest, hd, hi⟩
            · obtain ⟨t, ht, h1, h2⟩ := (ih ns hr n).mp hns
              exact ⟨t, List.mem_cons_of_mem tok ht, h1, h2⟩
          · rintro ⟨t, ht, h1, h2⟩
            rcases List.mem_cons.mp ht with rfl | htr
            · rw [hi] at h2
              exact List.mem_cons.mpr (Or.inl (Option.some.inj h2).symm)
            · exact List.mem_cons.mpr (Or.inr ((ih ns hr n).mpr ⟨t, htr, h1, h2⟩))
    · rw [if_neg hd] at h
      constructor
      · intro hn
        obtain ⟨t, ht, h1, h2⟩ := (ih ids h n).mp hn
        exact ⟨t, List.mem_cons_of_mem tok ht, h1, h2⟩
      · rintro ⟨t, ht, h1, h2⟩
        rcases List.mem_cons.mp ht with rfl | htr
        · exact absurd h1 hd
        · exact (ih ids h n).mpr ⟨t, htr, h1, h2⟩

/-! Claim theorems. -/

/-- C1, counterexample: in PDF mode, for the loaded one-chunk PDF corpus and
a planner response whose tokens contain no digit characters at all, the
comprehension succeeds with no ids (no exception is raised, so the except
fallback does not run) and the selection is empty, not the full chunk set as
the claim states. -/
theorem c1_pdf_empty_parse_counterexample :
    parseChunkIds "There are no relevant chunk ids." = some [] ∧
    selectPdfDocs "There are no relevant chunk ids." pdfOneChunk = [] ∧
    selectPdfDocs "There are no relevant chunk ids." pdfOneChunk ≠ pdfOneChunk := by
  refine ⟨by decide, by decide, by decide⟩

/-- C1, amended: the PDF planner response is parsed by splitting on commas,
stripping each token, skipping the tokens that fail isdigit, and converting
the remaining tokens with int(); the fall-back to the full chunk set is taken
exactly when that conversion raises, which happens exactly when some stripped
token passes isdigit without consisting of decimal digits (for example ²),
and otherwise the selection is the set of chunks whose chunk_id is among the
parsed ids — in particular, a response with no digit tokens at all parses to
no ids without raising and then selects nothing, not the full chunk set. -/
theorem c1_pdf_selection_amended :
    (∀ (resp : String) (pdf_docs : List PdfDoc),
        selectPdfDocs resp pdf_docs =
          match parseChunkIds resp with
          | some ids => pdf_docs.filter (fun d => decide (d.chunk_id ∈ ids))
          | none => pdf_docs) ∧
    (∀ resp : String,
        parseChunkIds resp = none ↔
          ∃ tok ∈ pySplitComma resp,
            pyIsDigit (pyTrim tok) = true ∧ pyIntDigits (pyTrim tok) = none) ∧
    (∀ (resp : String) (n : Nat),
        (∃ ids, parseChunkIds resp = some ids ∧ n ∈ ids) ↔
          (parseChunkIds resp ≠ none ∧
           ∃ tok ∈ pySplitComma resp,
             pyIsDigit (pyTrim tok) = true ∧ pyIntDigits (pyTrim tok) = some n)) := by
  refine ⟨fun resp pdf_docs => ?_, fun resp => parseTokens_eq_none_iff _, fun resp n => ?_⟩
  · cases h : parseChunkIds resp with
    | some ids =>
      simp only [selectPdfDocs, relevantChunkIds, h]
    | none =>
      simp only [selectPdfDocs, relevantChunkIds, h]
      rw [List.filter_eq_self]
      intro d hd
      simp only [decide_eq_true_eq, List.mem_map]
      exact ⟨d, hd, rfl⟩
  · cases h : parseChunkIds resp with
    | none =>
      simp
    | some ids =>
      constructor
      · rintro ⟨ids2, hids2, hn⟩
        obtain rfl : ids = ids2 := Option.some.inj (h ▸ hids2)
        exact ⟨by simp [h], (parseTokens_mem_of_some _ ids h n).mp hn⟩
      · rintro ⟨-, htok⟩
        exact ⟨ids, rfl, (parseTokens_mem_of_some _ ids h n).mpr htok⟩

/-- C2, counterexample: for the repository whose only file is the fifty-byte
README.md, fetch_repo_docs emits two chunks with source README.md (the
dedicated README document and the file-walk chunk of README.md itself) and
one file chunk, not exactly one README chunk and zero file chunks. -/
theorem c2_readme_repo_counterexample :
    ((fetch_repo_docs repoOnlyReadme).filter (fun d => d.source == "README.md")).length = 2 ∧
    ((fetch_repo_docs repoOnlyReadme).filter (fun d => d.chunk.isSome)).length = 1 := by
  refine ⟨by decide, by decide⟩

/-- C2, amended: for the fifty-byte README repository the output is the
README document, the Repository Structure document, and one file-walk chunk
for README.md (three chunks, two of which carry source README.md, because
the file walk does not exclude README.md); in general the first two emitted
documents are always the README document (or its placeholder) and the
structure document. -/
theorem c2_readme_repo_amended :
    fetch_repo_docs repoOnlyReadme =
      [{ page_content := readme50, source := "README.md", chunk := none },
       { page_content := "This is the repository file structure:\nüìÑ README.md\n",
         source := "Repository Structure", chunk := none },
       { page_content := readme50, source := "README.md", chunk := some 0 }] ∧
    ∀ repo : RepoData,
      ((fetch_repo_docs repo).map (fun d => d.source)).take 2 =
        ["README.md", "Repository Structure"] := by
  constructor
  · decide
  · intro repo
    cases h : repo.readme <;> simp [fetch_repo_docs, h]

/-- C3, counterexample: loading a corpus in which the single source a.py was
split into two chunks stores the manifest a.py newline a.py, which differs
from the newline-joined list of distinct sources the claim describes. -/
theorem c3_manifest_counterexample :
    (load_repo_step "https://github.com/u/r" (.ok dupSourceDocs) initialSession).file_manifest =
      some "a.py\na.py" ∧
    specManifest dupSourceDocs = "a.py" ∧
    ("a.py\na.py" : String) ≠ specManifest dupSourceDocs := by
  refine ⟨by decide, by decide, by decide⟩

/-- C3, amended: the stored manifest is the newline join of every chunk's
source identifier in corpus order, one line per chunk, so a source split into
several chunks contributes duplicate lines; it coincides with the
distinct-source join exactly on corpora whose chunk sources are already
pairwise distinct. -/
theorem c3_manifest_amended :
    (∀ (s : SessionData) (url : String) (docs : List Doc),
        (load_repo_step url (.ok docs) s).file_manifest = some (manifestOf docs)) ∧
    (∀ (s : SessionData) (f m b : String) (docs : List Doc),
        (load_file_step f m b (.ok docs) s).file_manifest = some (manifestOf docs)) ∧
    (∀ docs : List Doc, (docs.map (fun d => d.source)).Nodup →
        manifestOf docs = specManifest docs) := by
  refine ⟨fun s url docs => rfl, fun s f m b docs => rfl, fun docs h => ?_⟩
  unfold manifestOf specManifest
  rw [distinctKeepFirst_of_nodup _ h]

/-- C3 witness: the amended statement applied to concrete loads and to a
concrete duplicate-free corpus. -/
theorem c3_manifest_amended_witness :
    (load_repo_step "u" (.ok repoDocsA) initialSession).file_manifest =
      some (manifestOf repoDocsA) ∧
    (load_file_step "n.md" "text/markdown" "hello" (.ok repoDocsA) initialSession).file_manifest =
      some (manifestOf repoDocsA) ∧
    manifestOf repoDocsA = specManifest repoDocsA :=
  ⟨c3_manifest_amended.1 initialSession "u" repoDocsA,
   c3_manifest_amended.2.1 initialSession "n.md" "text/markdown" "hello" repoDocsA,
   c3_manifest_amended.2.2 repoDocsA (by decide)⟩

/-- C4: every load endpoint unconditionally clears the other corpus before
ingesting, so after any load invocation, successful or not, at most one of
the repo-side fields (docs, file_manifest, repo_url) and the PDF corpus
(pdf_docs) is populated; after loading a repo corpus and then a PDF corpus
the repo-side fields are all empty, and after loading a PDF corpus and then
a repo corpus the PDF corpus is empty. -/
theorem c4_mutual_exclusion :
    (∀ (s : SessionData) (op : LoadOp), mutexFree (applyOp op s) = true) ∧
    (∀ (s : SessionData) (url f m b : String) (docs : List Doc) (pdocs : List PdfDoc),
        (applyOp (.pdfUpload f m b (.ok pdocs)) (applyOp (.repo url (.ok docs)) s)).docs = none ∧
        (applyOp (.pdfUpload f m b (.ok pdocs))
            (applyOp (.repo url (.ok docs)) s)).file_manifest = none ∧
        (applyOp (.pdfUpload f m b (.ok pdocs))
            (applyOp (.repo url (.ok docs)) s)).repo_url = none) ∧
    (∀ (s : SessionData) (url f m b : String) (docs : List Doc) (pdocs : List PdfDoc),
        (applyOp (.repo url (.ok docs)) (applyOp (.pdfUpload f m b (.ok pdocs)) s)).pdf_docs =
          none) := by
  refine ⟨fun s op => ?_, fun s url f m b docs pdocs => ⟨rfl, rfl, rfl⟩,
          fun s url f m b docs pdocs => rfl⟩
  cases op with
  | repo url fetched =>
    cases fetched <;> simp [applyOp, load_repo_step, mutexFree]
  | fileUpload f m b processed =>
    cases processed <;> simp [applyOp, load_file_step, mutexFree]
  | pdfUpload f m b processed =>
    cases processed <;> simp [applyOp, load_pdf_step, mutexFree]

/-- C5: if the lowercased intent-classifier output contains the substring
conversational_reply, the route answers from the small-talk path with the
small-talk answer, for every loaded corpus and irrespective of the scope
classifier and planner outputs (they are never consulted); any classifier
output without the negative label takes the technical path, whose outcome is
the planner selection, the assembled context and the responder answer. -/
theorem c5_intent_branching :
    (∀ (q : String) (ds : List Doc) (o o2 : LLMOracle),
        q ≠ "" → ds ≠ [] →
        pyIn "conversational_reply" (pyLower o.intent) = true →
        o2.intent = o.intent → o2.conv_answer = o.conv_answer →
        ask_question_route q (some ds) o2 = AskOutcome.conversational o.conv_answer) ∧
    (∀ (q : String) (ds : List Doc) (o : LLMOracle),
        q ≠ "" → ds ≠ [] →
        pyIn "conversational_reply" (pyLower o.intent) = false →
        ask_question_route q (some ds) o =
          AskOutcome.technical (relevantFor o ds) (contextFor (relevantFor o ds))
            o.tech_answer) := by
  constructor
  · intro q ds o o2 hq hds hint hi hc
    cases ds with
    | nil => exact absurd rfl hds
    | cons d t =>
      simp [ask_question_route, hq, hi, hint, hc]
  · intro q ds o hq hds hint
    cases ds with
    | nil => exact absurd rfl hds
    | cons d t =>
      simp [ask_question_route, hq, hint]

/-- C5 witness: a conversational classification answers from the small-talk
path even when the planner-related oracle fields differ, and a
non-conversational classification takes the technical path, at concrete
inputs. -/
theorem c5_intent_branching_witness :
    ask_question_route "thanks!" (some repoDocsA)
        { intent := "Conversational_Reply", query_type := "specific_query",
          planner_files := "b.py", conv_answer := "hello there", tech_answer := "other" } =
      AskOutcome.conversational "hello there" ∧
    ask_question_route "what does main.py do?" (some repoDocsA)
        { intent := "technical_question", query_type := "broad_query",
          planner_files := "", conv_answer := "x", tech_answer := "the answer" } =
      AskOutcome.technical repoDocsA (contextFor repoDocsA) "the answer" := by
  constructor
  · exact c5_intent_branching.1 "thanks!" repoDocsA
      { intent := "Conversational_Reply", query_type := "broad_query",
        planner_files := "a.py", conv_answer := "hello there", tech_answer := "tech" }
      { intent := "Conversational_Reply", query_type := "specific_query",
        planner_files := "b.py", conv_answer := "hello there", tech_answer := "other" }
      (by decide) (by decide) (by decide) rfl rfl
  · have h := c5_intent_branching.2 "what does main.py do?" repoDocsA
      { intent := "technical_question", query_type := "broad_query",
        planner_files := "", conv_answer := "x", tech_answer := "the answer" }
      (by decide) (by decide) (by decide)
    simpa [relevantFor] using h

/-- C6: the planner output is parsed by splitting on commas, trimming each
piece and dropping the empties; a chunk is in the selection iff its source is
exactly one of the parsed tokens, except that when no chunk source matches
any token the selection is exactly the chunks whose source contains the
substring README.md. -/
theorem c6_planner_selection :
    (∀ (resp : String) (all_docs : List Doc) (d : Doc),
        d ∈ selectRepoDocs resp all_docs ↔
          ((d ∈ all_docs ∧ d.source ∈ parsePlannerFiles resp) ∨
           ((∀ e ∈ all_docs, e.source ∉ parsePlannerFiles resp) ∧
             d ∈ all_docs ∧ pyIn "README.md" d.source = true))) ∧
    (∀ (resp t : String),
        t ∈ parsePlannerFiles resp ↔
          (t ≠ "" ∧ ∃ raw ∈ pySplitComma resp, pyTrim raw = t)) := by
  constructor
  · intro resp all_docs d
    unfold selectRepoDocs
    cases hrel : (all_docs.filter
        (fun d => decide (d.source ∈ parsePlannerFiles resp))).isEmpty with
    | true =>
      have hnil := List.isEmpty_iff.mp hrel
      rw [List.filter_eq_nil_iff] at hnil
      have hnone : ∀ e ∈ all_docs, e.source ∉ parsePlannerFiles resp := by
        intro e he hmem
        exact hnil e he (by simpa using hmem)
      simp only [if_pos (List.isEmpty_iff.mpr (List.filter_eq_nil_iff.mpr hnil))]
      rw [List.mem_filter]
      constructor
      · rintro ⟨hd, hr⟩
        exact Or.inr ⟨hnone, hd, hr⟩
      · rintro (⟨hd, hs⟩ | ⟨_, hd, hr⟩)
        · exact absurd hs (hnone d hd)
        · exact ⟨hd, hr⟩
    | false =>
      have hne : all_docs.filter (fun d => decide (d.source ∈ parsePlannerFiles resp)) ≠ [] := by
        intro hcon
        rw [hcon] at hrel
        simp at hrel
      simp only [hrel, Bool.false_eq_true, if_false, List.mem_filter, decide_eq_true_eq]
      constructor
      · rintro ⟨hd, hs⟩
        exact Or.inl ⟨hd, hs⟩
      · rintro (⟨hd, hs⟩ | ⟨hall, hd, _⟩)
        · exact ⟨hd, hs⟩
        · exact absurd (List.filter_eq_nil_iff.mpr
            (fun e he => by simpa using hall e he)) hne
  · intro resp t
    simp only [parsePlannerFiles, List.mem_filter, List.mem_map]
    constructor
    · rintro ⟨⟨raw, hraw, hval⟩, hnb⟩
      refine ⟨?_, raw, hraw, hval⟩
      simpa using hnb
    · rintro ⟨hne, raw, hraw, hval⟩
      exact ⟨⟨raw, hraw, hval⟩, by simpa using hne⟩

/-- C7: during ingestion a file is skipped before its bytes are touched,
with no chunk emitted for any content, exactly when its lowercased name ends
with a denylisted extension or its size exceeds 100000 bytes; a file that
passes that test but fails UTF-8 decoding is skipped silently with no chunk
emitted; and a file that passes and decodes contributes one chunk per split
segment of its text. -/
theorem c7_ingest_skip (name path : String) (size : Nat) :
    (shouldSkipIngest name size = true →
       ∀ content : Option String, chunksForFile name path size content = []) ∧
    (shouldSkipIngest name size = false → chunksForFile name path size none = []) ∧
    (shouldSkipIngest name size = false → ∀ text : String,
       chunksForFile name path size (some text) = enumDocs path 0 (splitText 4000 text)) ∧
    shouldSkipIngest name size =
      (ingestBinExts.any (fun ext => pyEndsWith (pyLower name) ext) || decide (size > 100000)) := by
  refine ⟨fun h content => ?_, fun h => ?_, fun h text => ?_, rfl⟩
  · simp [chunksForFile, h]
  · simp [chunksForFile, h]
  · simp [chunksForFile, h]

/-- C7 witness: a denylisted file is skipped whatever its content, an
accepted file with undecodable bytes emits nothing, and an accepted decodable
file emits its split chunks, at concrete inputs. -/
theorem c7_ingest_skip_witness :
    chunksForFile "logo.png" "static/logo.png" 10 (some "data") = [] ∧
    chunksForFile "main.py" "main.py" 10 none = [] ∧
    chunksForFile "main.py" "main.py" 10 (some "print(1)") =
      enumDocs "main.py" 0 (splitText 4000 "print(1)") :=
  ⟨(c7_ingest_skip "logo.png" "static/logo.png" 10).1 (by decide) (some "data"),
   (c7_ingest_skip "main.py" "main.py" 10).2.1 (by decide),
   (c7_ingest_skip "main.py" "main.py" 10).2.2.1 (by decide) "print(1)"⟩

/-- C8: the upload processor fails with the unsupported-type error exactly
when the lowercased filename ends in neither .md nor .txt; an accepted file
whose decoded text strips to empty yields no chunks; and an accepted file
with nonempty stripped text yields the enumerated split chunks, each tagged
with the filename as source and its split index. -/
theorem c8_upload_processing (filename : String) (decodedText : Option String) :
    ((process_uploaded_file_docs filename decodedText = .error .unsupportedType) ↔
       (pyEndsWith (pyLower filename) ".md" || pyEndsWith (pyLower filename) ".txt") = false) ∧
    ((pyEndsWith (pyLower filename) ".md" || pyEndsWith (pyLower filename) ".txt") = true →
       ∀ raw : String, decodedText = some raw → pyTrim raw = "" →
         process_uploaded_file_docs filename decodedText = .ok []) ∧
    ((pyEndsWith (pyLower filename) ".md" || pyEndsWith (pyLower filename) ".txt") = true →
       ∀ raw : String, decodedText = some raw → pyTrim raw ≠ "" →
         process_uploaded_file_docs filename decodedText =
           .ok (enumDocs filename 0 (splitText 4000 raw)) ∧
         ∀ (i : Nat) (h : i < (enumDocs filename 0 (splitText 4000 raw)).length),
           ((enumDocs filename 0 (splitText 4000 raw)).get ⟨i, h⟩).source = filename ∧
           ((enumDocs filename 0 (splitText 4000 raw)).get ⟨i, h⟩).chunk = some i) := by
  refine ⟨?_, fun hacc raw hdec htrim => ?_, fun hacc raw hdec htrim => ⟨?_, fun i h => ?_⟩⟩
  · constructor
    · intro hres
      cases hb : (pyEndsWith (pyLower filename) ".md" ||
          pyEndsWith (pyLower filename) ".txt") with
      | false => rfl
      | true =>
        exfalso
        cases decodedText with
        | none => simp [process_uploaded_file_docs, hb] at hres
        | some raw =>
          by_cases ht : pyTrim raw = ""
          · simp [process_uploaded_file_docs, hb, ht] at hres
          · simp [process_uploaded_file_docs, hb, ht] at hres
    · intro hfail
      simp [process_uploaded_file_docs, hfail]
  · subst hdec
    simp only [process_uploaded_file_docs]
    rw [if_pos hacc]
    simp [htrim]
  · subst hdec
    simp only [process_uploaded_file_docs]
    rw [if_pos hacc]
    simp [htrim]
  · simpa using enumDocs_get filename 0 (splitText 4000 raw) i h

/-- C8 witness: the theorem applied to a rejected extension, an accepted
whitespace-only file, and an accepted nonempty markdown file. -/
theorem c8_upload_processing_witness :
    process_uploaded_file_docs "img.png" (some "x") = .error .unsupportedType ∧
    process_uploaded_file_docs "NOTES.TXT" (some "  \n ") = .ok [] ∧
    process_uploaded_file_docs "hi.md" (some "hi there") =
      .ok (enumDocs "hi.md" 0 (splitText 4000 "hi there")) :=
  ⟨(c8_upload_processing "img.png" (some "x")).1.mpr (by decide),
   (c8_upload_processing "NOTES.TXT" (some "  \n ")).2.1 (by decide) "  \n " rfl (by decide),
   ((c8_upload_processing "hi.md" (some "hi there")).2.2 (by decide) "hi there" rfl
      (by decide)).1⟩

/-- C9: the tree view flags a file whose size exceeds 100000 bytes as large
and therefore not viewable, while the single-file fetch only refuses content
above 500000 bytes, so a non-binary decodable file with size strictly between
the two thresholds is marked not viewable in the tree and yet fetched with
its full content and no error. -/
theorem c9_threshold_asymmetry (name path : String) (size : Nat) (text : String) :
    viewerBinExts.any (fun ext => pyEndsWith (pyLower name) ext) = false →
    viewerBinExts.any (fun ext => pyEndsWith (pyLower path) ext) = false →
    100000 < size → size < 500000 →
    (mkFileNode name path size).is_large = true ∧
    (mkFileNode name path size).viewable = false ∧
    (fetch_file_content path size (some text)).content = some text ∧
    (fetch_file_content path size (some text)).error = none := by
  intro hname hpath hlo hhi
  have hl1 : decide (size > 100000) = true := by simpa using hlo
  have hl2 : decide (size > 500000) = false := by
    simp only [decide_eq_false_iff_not]
    omega
  refine ⟨?_, ?_, ?_, ?_⟩
  · simp [mkFileNode, hl1]
  · simp [mkFileNode, hl1]
  · simp [fetch_file_content, hpath, hl2]
  · simp [fetch_file_content, hpath, hl2]

/-- C9 witness: a 200000-byte csv file is not viewable in the tree but the
single-file fetch returns its content. -/
theorem c9_threshold_asymmetry_witness :
    (mkFileNode "data.csv" "data/data.csv" 200000).is_large = true ∧
    (mkFileNode "data.csv" "data/data.csv" 200000).viewable = false ∧
    (fetch_file_content "data/data.csv" 200000 (some "a,b")).content = some "a,b" ∧
    (fetch_file_content "data/data.csv" 200000 (some "a,b")).error = none :=
  c9_threshold_asymmetry "data.csv" "data/data.csv" 200000 "a,b"
    (by decide) (by decide) (by decide) (by decide)

/-- C10, counterexample: a repo load that fails after a previous successful
repo load does not erase the previous corpus: the session still holds the
old documents, manifest and URL, contradicting the claim that a failed
ingestion always leaves the session with no active corpus. -/
theorem c10_load_failure_counterexample :
    (load_repo_step "https://github.com/u/r2" (.error "fetch failed")
        (load_repo_step "https://github.com/u/r1" (.ok repoDocsA) initialSession)).docs =
      some repoDocsA ∧
    (load_repo_step "https://github.com/u/r2" (.error "fetch failed")
        (load_repo_step "https://github.com/u/r1" (.ok repoDocsA) initialSession)).file_manifest =
      some (manifestOf repoDocsA) ∧
    (load_repo_step "https://github.com/u/r2" (.error "fetch failed")
        (load_repo_step "https://github.com/u/r1" (.ok repoDocsA) initialSession)).repo_url =
      some "https://github.com/u/r1" := by
  refine ⟨rfl, rfl, rfl⟩

/-- C10, amended: the file and PDF load endpoints clear every corpus field
and overwrite the viewer filename, bytes and mimetype before ingestion, so
when their ingestion fails the session holds no corpus and the new viewer
data; the repo load endpoint clears only the PDF corpus and the viewer
fields before fetching, so a failed repo load erases a previously loaded PDF
corpus but leaves a previously loaded repo or file corpus (docs, manifest,
URL) untouched. -/
theorem c10_load_failure_amended :
    (∀ (s : SessionData) (f m b e : String),
        (load_file_step f m b (.error e) s).docs = none ∧
        (load_file_step f m b (.error e) s).file_manifest = none ∧
        (load_file_step f m b (.error e) s).repo_url = none ∧
        (load_file_step f m b (.error e) s).pdf_docs = none ∧
        (load_file_step f m b (.error e) s).document_filename = some (secure_filename f) ∧
        (load_file_step f m b (.error e) s).document_content = some b ∧
        (load_file_step f m b (.error e) s).document_mimetype = some m) ∧
    (∀ (s : SessionData) (f m b e : String),
        (load_pdf_step f m b (.error e) s).docs = none ∧
        (load_pdf_step f m b (.error e) s).file_manifest = none ∧
        (load_pdf_step f m b (.error e) s).repo_url = none ∧
        (load_pdf_step f m b (.error e) s).pdf_docs = none ∧
        (load_pdf_step f m b (.error e) s).document_filename = some (secure_filename f) ∧
        (load_pdf_step f m b (.error e) s).document_content = some b ∧
        (load_pdf_step f m b (.error e) s).document_mimetype = some m) ∧
    (∀ (s : SessionData) (url e : String),
        (load_repo_step url (.error e) s).pdf_docs = none ∧
        (load_repo_step url (.error e) s).document_filename = none ∧
        (load_repo_step url (.error e) s).document_content = none ∧
        (load_repo_step url (.error e) s).document_mimetype = none ∧
        (load_repo_step url (.error e) s).docs = s.docs ∧
        (load_repo_step url (.error e) s).file_manifest = s.file_manifest ∧
        (load_repo_step url (.error e) s).repo_url = s.repo_url) :=
  ⟨fun _ _ _ _ _ => ⟨rfl, rfl, rfl, rfl, rfl, rfl, rfl⟩,
   fun _ _ _ _ _ => ⟨rfl, rfl, rfl, rfl, rfl, rfl, rfl⟩,
   fun _ _ _ => ⟨rfl, rfl, rfl, rfl, rfl, rfl, rfl⟩⟩

end Spoon
